import Mathlib

/-!
Verification of the Fast-Edit batch composition front end.

The definitions below are shallow embeddings of the TypeScript sources:
  - ComposerPanel.tsx (handleCompose, buildTextShadow),
  - AutomationPanel (loadModels, handleGenerateSubtitles),
  - useProject.ts (updateScene) and pickDialog.ts (pickPath),
and, for the pairing engine and job orchestrator whose implementation lives
in the Tauri backend outside the front-end sources, models written from the
specification text (each such definition is marked in its doc comment).

JavaScript numbers are modelled by the type JsNum, which distinguishes
finite values (as rationals), NaN, and the two infinities, so that the
semantics of Number.isFinite, Number.isNaN and JS comparisons against zero
are captured exactly on the code paths the claims exercise.
-/

namespace FastEdit

/-- A JavaScript number: a finite value (modelled as a rational), NaN, or an
infinity. Floating-point rounding is irrelevant to the checked code paths,
which only compare values against zero and test finiteness. -/
inductive JsNum where
  | fin (q : ℚ)
  | nan
  | posInf
  | negInf
deriving DecidableEq

/-- Semantics of Number.isFinite. -/
def JsNum.isFinite : JsNum → Bool
  | .fin _ => true
  | _ => false

/-- Semantics of Number.isNaN. -/
def JsNum.isNaN : JsNum → Bool
  | .nan => true
  | _ => false

/-- Semantics of the JS comparison x > 0 (false on NaN). -/
def JsNum.gtZero : JsNum → Bool
  | .fin q => decide (0 < q)
  | .posInf => true
  | _ => false

/-- Semantics of the JS comparison x >= 0 (false on NaN). -/
def JsNum.geZero : JsNum → Bool
  | .fin q => decide (0 ≤ q)
  | .posInf => true
  | _ => false

/-- Semantics of the JS comparison x <= 0 (false on NaN). -/
def JsNum.leZero : JsNum → Bool
  | .fin q => decide (q ≤ 0)
  | .negInf => true
  | _ => false

/-- Semantics of the JS strict inequality x !== 0 (true on NaN and infinities). -/
def JsNum.strictNeZero : JsNum → Bool
  | .fin q => decide (q ≠ 0)
  | _ => true

/-- The UI style fields handed to handleCompose (ComposerPanel.tsx props). -/
structure StyleInputs where
  fontFamily : String
  fontSize : JsNum
  textColor : String
  outlineColor : String
  outlineWidth : JsNum
  letterSpacing : JsNum
deriving DecidableEq

/-- The subtitle style descriptor sent to the backend; an absent optional
field (undefined in the TypeScript object literal) is none. -/
structure SubtitleStyle where
  fontName : String
  fontSize : Option JsNum
  primaryColor : String
  outlineColor : String
  outlineWidth : Option JsNum
  letterSpacing : Option JsNum
deriving DecidableEq

/-- The subtitleStyle object literal built by handleCompose
(ComposerPanel.tsx lines 105-113). -/
def buildSubtitleStyle (s : StyleInputs) : SubtitleStyle :=
  { fontName := s.fontFamily
    fontSize :=
      if (s.fontSize.isFinite && s.fontSize.gtZero) = true then some s.fontSize else none
    primaryColor := s.textColor
    outlineColor := s.outlineColor
    outlineWidth :=
      if (s.outlineWidth.isFinite && s.outlineWidth.geZero) = true then
        some s.outlineWidth
      else none
    letterSpacing :=
      if (s.letterSpacing.isFinite && s.letterSpacing.strictNeZero) = true then
        some s.letterSpacing
      else none }

/-- Error vocabulary of the specification for style resolution. -/
inductive StyleError where
  | invalidStyleValue
deriving DecidableEq

/-- Style resolution as performed by handleCompose: the construction of the
subtitleStyle literal (ComposerPanel.tsx lines 105-113) has no failure path,
so resolution always succeeds with the built descriptor. -/
def resolveStyle (s : StyleInputs) : Except StyleError SubtitleStyle :=
  .ok (buildSubtitleStyle s)

lemma gtZero_iff (x : JsNum) :
    (x.isFinite && x.gtZero) = true ↔ ∃ q : ℚ, x = .fin q ∧ 0 < q := by
  cases x <;> simp [JsNum.isFinite, JsNum.gtZero]

lemma geZero_iff (x : JsNum) :
    (x.isFinite && x.geZero) = true ↔ ∃ q : ℚ, x = .fin q ∧ 0 ≤ q := by
  cases x <;> simp [JsNum.isFinite, JsNum.geZero]

lemma strictNeZero_iff (x : JsNum) :
    (x.isFinite && x.strictNeZero) = true ↔ ∃ q : ℚ, x = .fin q ∧ q ≠ 0 := by
  cases x <;> simp [JsNum.isFinite, JsNum.strictNeZero]

lemma optField_spec (x : JsNum) (p : ℚ → Prop) (b : Bool)
    (hb : b = true ↔ ∃ q : ℚ, x = .fin q ∧ p q) :
    ((if b then some x else none) = some x ↔ ∃ q : ℚ, x = .fin q ∧ p q) ∧
    ((if b then some x else none) = none ↔ ¬ ∃ q : ℚ, x = .fin q ∧ p q) := by
  cases hbb : b with
  | true =>
      have hex : ∃ q : ℚ, x = .fin q ∧ p q := hb.mp hbb
      refine ⟨⟨fun _ => hex, fun _ => rfl⟩, ⟨fun h => Option.noConfusion h, fun h => absurd hex h⟩⟩
  | false =>
      have hex : ¬ ∃ q : ℚ, x = .fin q ∧ p q := fun hex => by
        have hb' := hb.mpr hex
        rw [hbb] at hb'
        exact Bool.noConfusion hb'
      refine ⟨⟨fun h => Option.noConfusion h, fun h => absurd h hex⟩, ⟨fun _ => hex, fun _ => rfl⟩⟩

/-- C1: in the composition request built by handleCompose, each optional
numeric style field (fontSize, outlineWidth, letterSpacing) is present in
the descriptor exactly when the supplied value is finite and satisfies its
domain constraint (fontSize > 0, outlineWidth >= 0, letterSpacing != 0),
is absent otherwise, and fontFamily, primaryColor and outlineColor are
passed through unchanged. -/
theorem buildSubtitleStyle_fields (s : StyleInputs) :
    ((buildSubtitleStyle s).fontSize = some s.fontSize ↔
      ∃ q : ℚ, s.fontSize = .fin q ∧ 0 < q) ∧
    ((buildSubtitleStyle s).fontSize = none ↔
      ¬ ∃ q : ℚ, s.fontSize = .fin q ∧ 0 < q) ∧
    ((buildSubtitleStyle s).outlineWidth = some s.outlineWidth ↔
      ∃ q : ℚ, s.outlineWidth = .fin q ∧ 0 ≤ q) ∧
    ((buildSubtitleStyle s).outlineWidth = none ↔
      ¬ ∃ q : ℚ, s.outlineWidth = .fin q ∧ 0 ≤ q) ∧
    ((buildSubtitleStyle s).letterSpacing = some s.letterSpacing ↔
      ∃ q : ℚ, s.letterSpacing = .fin q ∧ q ≠ 0) ∧
    ((buildSubtitleStyle s).letterSpacing = none ↔
      ¬ ∃ q : ℚ, s.letterSpacing = .fin q ∧ q ≠ 0) ∧
    (buildSubtitleStyle s).fontName = s.fontFamily ∧
    (buildSubtitleStyle s).primaryColor = s.textColor ∧
    (buildSubtitleStyle s).outlineColor = s.outlineColor := by
  exact ⟨(optField_spec _ _ _ (gtZero_iff s.fontSize)).1,
    (optField_spec _ _ _ (gtZero_iff s.fontSize)).2,
    (optField_spec _ _ _ (geZero_iff s.outlineWidth)).1,
    (optField_spec _ _ _ (geZero_iff s.outlineWidth)).2,
    (optField_spec _ _ _ (strictNeZero_iff s.letterSpacing)).1,
    (optField_spec _ _ _ (strictNeZero_iff s.letterSpacing)).2,
    rfl, rfl, rfl⟩

/-- Closed instance of buildSubtitleStyle_fields at a concrete input: a
fontSize of 48 is kept and a NaN letterSpacing is dropped. -/
theorem buildSubtitleStyle_fields_witness :
    (buildSubtitleStyle
      { fontFamily := "Arial", fontSize := JsNum.fin 48, textColor := "#ffffff",
        outlineColor := "#000000", outlineWidth := JsNum.fin 2,
        letterSpacing := JsNum.nan }).fontSize = some (JsNum.fin 48) ∧
    (buildSubtitleStyle
      { fontFamily := "Arial", fontSize := JsNum.fin 48, textColor := "#ffffff",
        outlineColor := "#000000", outlineWidth := JsNum.fin 2,
        letterSpacing := JsNum.nan }).letterSpacing = none := by
  have h := buildSubtitleStyle_fields
    { fontFamily := "Arial", fontSize := JsNum.fin 48, textColor := "#ffffff",
      outlineColor := "#000000", outlineWidth := JsNum.fin 2,
      letterSpacing := JsNum.nan }
  refine ⟨h.1.mpr ⟨48, rfl, by norm_num⟩, h.2.2.2.2.2.1.mpr ?_⟩
  rintro ⟨q, hq, -⟩
  exact JsNum.noConfusion hq

/-- C2 counterexample: on an input whose every numeric style field is
non-finite, the style step of handleCompose succeeds (the non-finite values
are silently dropped); it does not fail with InvalidStyleValue. -/
theorem resolveStyle_nonfinite_succeeds :
    resolveStyle
      { fontFamily := "Arial", fontSize := JsNum.nan, textColor := "#ffffff",
        outlineColor := "#000000", outlineWidth := JsNum.nan,
        letterSpacing := JsNum.nan }
      = Except.ok
        { fontName := "Arial", fontSize := none, primaryColor := "#ffffff",
          outlineColor := "#000000", outlineWidth := none,
          letterSpacing := none } := by
  rfl

/-- C2 amended: style resolution in handleCompose never fails; a non-finite
numeric input and a zero or negative fontSize resolve to an absent field
(renderer default) instead of an InvalidStyleValue error, a fontSize of 48
passes through unchanged, and a letterSpacing of 0 resolves to unset. -/
theorem resolveStyle_behaviour (s : StyleInputs) :
    resolveStyle s = Except.ok (buildSubtitleStyle s) ∧
    (s.fontSize.isFinite = false → (buildSubtitleStyle s).fontSize = none) ∧
    (s.outlineWidth.isFinite = false → (buildSubtitleStyle s).outlineWidth = none) ∧
    (s.letterSpacing.isFinite = false → (buildSubtitleStyle s).letterSpacing = none) ∧
    (∀ q : ℚ, q ≤ 0 → s.fontSize = .fin q → (buildSubtitleStyle s).fontSize = none) ∧
    (s.fontSize = .fin 48 → (buildSubtitleStyle s).fontSize = some (JsNum.fin 48)) ∧
    (s.letterSpacing = .fin 0 → (buildSubtitleStyle s).letterSpacing = none) := by
  refine ⟨rfl, fun h => ?_, fun h => ?_, fun h => ?_, fun q hq h => ?_, fun h => ?_, fun h => ?_⟩
  · simp [buildSubtitleStyle, h]
  · simp [buildSubtitleStyle, h]
  · simp [buildSubtitleStyle, h]
  · simp [buildSubtitleStyle, h, JsNum.isFinite, JsNum.gtZero, not_lt.mpr hq]
  · simp [buildSubtitleStyle, h, JsNum.isFinite, JsNum.gtZero]
  · simp [buildSubtitleStyle, h, JsNum.isFinite, JsNum.strictNeZero]

/-- Closed instance of resolveStyle_behaviour at a concrete input: a zero
letterSpacing resolves to unset and resolution succeeds. -/
theorem resolveStyle_behaviour_witness :
    resolveStyle
      { fontFamily := "Inter", fontSize := JsNum.fin 32, textColor := "#ffff00",
        outlineColor := "#000000", outlineWidth := JsNum.fin 0,
        letterSpacing := JsNum.fin 0 }
      = Except.ok (buildSubtitleStyle
        { fontFamily := "Inter", fontSize := JsNum.fin 32, textColor := "#ffff00",
          outlineColor := "#000000", outlineWidth := JsNum.fin 0,
          letterSpacing := JsNum.fin 0 }) ∧
    (buildSubtitleStyle
      { fontFamily := "Inter", fontSize := JsNum.fin 32, textColor := "#ffff00",
        outlineColor := "#000000", outlineWidth := JsNum.fin 0,
        letterSpacing := JsNum.fin 0 }).letterSpacing = none := by
  have h := resolveStyle_behaviour
    { fontFamily := "Inter", fontSize := JsNum.fin 32, textColor := "#ffff00",
      outlineColor := "#000000", outlineWidth := JsNum.fin 0,
      letterSpacing := JsNum.fin 0 }
  exact ⟨h.1, h.2.2.2.2.2.2 rfl⟩

/-- One shadow entry string as pushed by buildTextShadow
(ComposerPanel.tsx line 466); the numeral rendering of the JS template
literal is abstracted by the fmt argument. -/
def shadowEntry (fmt : ℚ → String) (x y : ℚ) (color : String) : String :=
  fmt x ++ "px " ++ fmt y ++ "px 0 " ++ color

/-- The list of shadow entries accumulated by the nested forEach loops of
buildTextShadow (ComposerPanel.tsx lines 461-468): outer offset x, inner
offset y, skipping the (0, 0) pair. -/
def shadowList (fmt : ℚ → String) (width : ℚ) (color : String) : List String :=
  let offsets : List ℚ := [-width, 0, width]
  offsets.flatMap (fun x => offsets.filterMap (fun y =>
    if x = 0 ∧ y = 0 then none else some (shadowEntry fmt x y color)))

/-- buildTextShadow (ComposerPanel.tsx lines 457-470). -/
def buildTextShadow (fmt : ℚ → String) (width : ℚ) (color : String) : String :=
  if width ≤ 0 then "none"
  else String.intercalate ", " (shadowList fmt width color)

/-- C10: buildTextShadow returns "none" for every outline width at most 0;
for every width greater than 0 it returns the comma-join of exactly 8
shadow entries, one per offset pair (x, y) with x, y drawn from
-width, 0, width excluding (0, 0), each carrying the given color. -/
theorem buildTextShadow_cases (fmt : ℚ → String) (width : ℚ) (color : String) :
    (width ≤ 0 → buildTextShadow fmt width color = "none") ∧
    (0 < width →
      shadowList fmt width color =
        [shadowEntry fmt (-width) (-width) color, shadowEntry fmt (-width) 0 color,
         shadowEntry fmt (-width) width color, shadowEntry fmt 0 (-width) color,
         shadowEntry fmt 0 width color, shadowEntry fmt width (-width) color,
         shadowEntry fmt width 0 color, shadowEntry fmt width width color] ∧
      (shadowList fmt width color).length = 8 ∧
      buildTextShadow fmt width color =
        String.intercalate ", " (shadowList fmt width color)) := by
  constructor
  · intro h
    simp [buildTextShadow, h]
  · intro h
    have hw0 : ¬ width ≤ 0 := not_le.mpr h
    have hne : width ≠ 0 := ne_of_gt h
    have hneg : -width ≠ 0 := neg_ne_zero.mpr hne
    have hlist : shadowList fmt width color =
        [shadowEntry fmt (-width) (-width) color, shadowEntry fmt (-width) 0 color,
         shadowEntry fmt (-width) width color, shadowEntry fmt 0 (-width) color,
         shadowEntry fmt 0 width color, shadowEntry fmt width (-width) color,
         shadowEntry fmt width 0 color, shadowEntry fmt width width color] := by
      simp [shadowList, List.flatMap, List.filterMap, hne, hneg]
    refine ⟨hlist, ?_, ?_⟩
    · rw [hlist]
      rfl
    · simp [buildTextShadow, hw0]

/-- Closed instance of buildTextShadow_cases: width -1 yields "none" and
width 2 yields 8 entries. -/
theorem buildTextShadow_cases_witness :
    buildTextShadow (fun _ => "o") (-1) "red" = "none" ∧
    (shadowList (fun _ => "o") 2 "red").length = 8 := by
  have h1 := buildTextShadow_cases (fun _ => "o") (-1) "red"
  have h2 := buildTextShadow_cases (fun _ => "o") 2 "red"
  exact ⟨h1.1 (by norm_num), (h2.2 (by norm_num)).2.1⟩

/-- Tone of a status message (ComposerPanel.tsx StatusMessage type). -/
inductive Tone where
  | success
  | error
deriving DecidableEq

/-- A status message shown to the user. -/
structure StatusMessage where
  tone : Tone
  message : String
deriving DecidableEq

/-- One entry of the composition report returned by the backend
(ComposerPanel.tsx StitchReportItem type). -/
structure StitchReportItem where
  index : Nat
  audio_path : String
  image_path : String
  subtitle_path : Option String
  output_path : String
deriving DecidableEq

/-- The component state read by handleCompose. -/
structure ComposerState where
  audioDirectory : String
  imageDirectory : String
  subtitleDirectory : String
  outputDirectory : String
  frameRate : String
  videoCodec : String
  audioBitrate : String
  burnSubtitles : Bool
  style : StyleInputs
deriving DecidableEq

/-- The argument object passed to the command_stitch_assets invocation
(ComposerPanel.tsx lines 115-127). -/
structure StitchArgs where
  audioDirectory : String
  imageDirectory : String
  subtitleDirectory : Option String
  outputDirectory : String
  frameRate : JsNum
  codec : String
  audioBitrate : String
  burnSubtitles : Bool
  subtitleStyle : SubtitleStyle
deriving DecidableEq

/-- Outcome of the synchronous part of handleCompose: either an early
return with an error status before any command is invoked, or the
invocation of the transcoding command with the assembled arguments. -/
inductive ComposeOutcome where
  | aborted (status : StatusMessage)
  | invoked (args : StitchArgs)
deriving DecidableEq

/-- handleCompose up to the command invocation (ComposerPanel.tsx lines
85-127). Parsing of the frame-rate text field by the JS Number conversion
is abstracted by the parse argument. -/
def composeRequest (parse : String → JsNum) (st : ComposerState) : ComposeOutcome :=
  if st.audioDirectory = "" ∨ st.imageDirectory = "" ∨ st.outputDirectory = "" then
    .aborted ⟨Tone.error, "Cần chọn thư mục audio, hình ảnh và thư mục xuất video."⟩
  else
    let parsedFrameRate := parse st.frameRate
    if parsedFrameRate.isNaN = true ∨ parsedFrameRate.leZero = true then
      .aborted ⟨Tone.error, "Frame rate không hợp lệ."⟩
    else
      .invoked
        { audioDirectory := st.audioDirectory
          imageDirectory := st.imageDirectory
          subtitleDirectory :=
            if 0 < st.subtitleDirectory.trim.length then some st.subtitleDirectory else none
          outputDirectory := st.outputDirectory
          frameRate := parsedFrameRate
          codec := st.videoCodec
          audioBitrate := if 0 < st.audioBitrate.trim.length then st.audioBitrate else "192k"
          burnSubtitles := st.burnSubtitles
          subtitleStyle := buildSubtitleStyle st.style }

/-- The results list after the synchronous prefix of handleCompose: the two
early returns leave the previous list untouched; the invocation path has
cleared it (setResults([]) on line 103) before calling the backend. -/
def resultsBeforeInvoke (o : ComposeOutcome) (prev : List StitchReportItem) :
    List StitchReportItem :=
  match o with
  | .aborted _ => prev
  | .invoked _ => []

lemma not_gtZero_iff (x : JsNum) :
    x.gtZero = false ↔ (x.isNaN = true ∨ x.leZero = true) := by
  cases x with
  | fin q =>
      simp [JsNum.gtZero, JsNum.isNaN, JsNum.leZero]
  | nan => simp [JsNum.gtZero, JsNum.isNaN, JsNum.leZero]
  | posInf => simp [JsNum.gtZero, JsNum.isNaN, JsNum.leZero]
  | negInf => simp [JsNum.gtZero, JsNum.isNaN, JsNum.leZero]

/-- C6: when the audio, image or output directory is empty, or the frame
rate does not parse to a positive number, handleCompose aborts with an
error status before the transcoding command is invoked, and the existing
results list is left unchanged. -/
theorem composeRequest_precheck (parse : String → JsNum) (st : ComposerState)
    (prev : List StitchReportItem)
    (h : st.audioDirectory = "" ∨ st.imageDirectory = "" ∨ st.outputDirectory = "" ∨
      (parse st.frameRate).gtZero = false) :
    (∃ msg, composeRequest parse st = .aborted ⟨Tone.error, msg⟩) ∧
    (∀ args, composeRequest parse st ≠ .invoked args) ∧
    resultsBeforeInvoke (composeRequest parse st) prev = prev := by
  have habort : ∃ msg, composeRequest parse st = .aborted ⟨Tone.error, msg⟩ := by
    by_cases hdir : st.audioDirectory = "" ∨ st.imageDirectory = "" ∨ st.outputDirectory = ""
    · exact ⟨"Cần chọn thư mục audio, hình ảnh và thư mục xuất video.",
        by simp [composeRequest, hdir]⟩
    · have hfr : (parse st.frameRate).gtZero = false := by
        rcases h with h1 | h2 | h3 | h4
        · exact absurd (Or.inl h1) hdir
        · exact absurd (Or.inr (Or.inl h2)) hdir
        · exact absurd (Or.inr (Or.inr h3)) hdir
        · exact h4
      have hguard := (not_gtZero_iff (parse st.frameRate)).mp hfr
      exact ⟨"Frame rate không hợp lệ.", by simp [composeRequest, hdir, hguard]⟩
  obtain ⟨msg, hmsg⟩ := habort
  refine ⟨⟨msg, hmsg⟩, fun args hargs => ?_, ?_⟩
  · rw [hmsg] at hargs
    exact ComposeOutcome.noConfusion hargs
  · rw [hmsg]
    rfl

/-- Closed instance of composeRequest_precheck: with an empty audio
directory the request aborts and a one-element results list survives. -/
theorem composeRequest_precheck_witness :
    resultsBeforeInvoke
      (composeRequest (fun _ => JsNum.fin 30)
        { audioDirectory := "", imageDirectory := "/img", subtitleDirectory := "",
          outputDirectory := "/out", frameRate := "30", videoCodec := "h264",
          audioBitrate := "192k", burnSubtitles := false,
          style := { fontFamily := "Arial", fontSize := JsNum.fin 48,
                     textColor := "#ffffff", outlineColor := "#000000",
                     outlineWidth := JsNum.fin 2, letterSpacing := JsNum.fin 0 } })
      [{ index := 1, audio_path := "a.wav", image_path := "i.jpg",
         subtitle_path := none, output_path := "v.mp4" }] =
      [{ index := 1, audio_path := "a.wav", image_path := "i.jpg",
         subtitle_path := none, output_path := "v.mp4" }] := by
  exact (composeRequest_precheck (fun _ => JsNum.fin 30) _ _ (Or.inl rfl)).2.2

/-- A speech-recognition model entry as returned by command_list_models
(AutomationPanel, WhisperModelInfo type). -/
structure ModelInfo where
  id : String
  name : String
  path : String
  size_bytes : Nat
  recommended : Bool
  available : Bool
deriving DecidableEq

/-- The default model selection made by loadModels after the registry
returns (AutomationPanel lines 110-113): the first entry flagged
recommended, else the first entry of the list; no selection when the list
is empty. -/
def selectDefaultModel (result : List ModelInfo) : Option String :=
  (((result.find? (fun m => m.recommended)).orElse (fun _ => result.head?)).map
    (fun m => m.id))

/-- C5: for a non-empty model list the default selection after loading is
the unique recommended entry when one exists, else the first entry in
catalog order; for an empty list no selection is made. -/
theorem selectDefaultModel_spec (result : List ModelInfo) :
    (result = [] → selectDefaultModel result = none) ∧
    (∀ m, m ∈ result → m.recommended = true →
      (∀ m', m' ∈ result → m'.recommended = true → m' = m) →
      selectDefaultModel result = some m.id) ∧
    ((∀ m, m ∈ result → m.recommended = false) →
      selectDefaultModel result = result.head?.map (fun m => m.id)) ∧
    (result ≠ [] → (selectDefaultModel result).isSome = true) := by
  refine ⟨fun he => by simp [selectDefaultModel, he], ?_, ?_, ?_⟩
  · intro m hm hrec huniq
    have hsome : (result.find? (fun m => m.recommended)).isSome = true := by
      rw [List.find?_isSome]
      exact ⟨m, hm, hrec⟩
    obtain ⟨x, hx⟩ := Option.isSome_iff_exists.mp hsome
    have hxmem : x ∈ result := List.mem_of_find?_eq_some hx
    have hxrec : x.recommended = true := List.find?_some hx
    have hxm : x = m := huniq x hxmem hxrec
    simp [selectDefaultModel, hx, Option.orElse, hxm]
  · intro hnone
    have hfind : result.find? (fun m => m.recommended) = none := by
      rw [List.find?_eq_none]
      intro x hx
      simp [hnone x hx]
    simp [selectDefaultModel, hfind, Option.orElse]
  · intro hne
    cases result with
    | nil => exact absurd rfl hne
    | cons m rest =>
        cases hfind : (m :: rest).find? (fun m => m.recommended) with
        | none => simp [selectDefaultModel, hfind, Option.orElse]
        | some x => simp [selectDefaultModel, hfind, Option.orElse]

/-- Closed instance of selectDefaultModel_spec: the recommended entry wins
over an earlier non-recommended one. -/
theorem selectDefaultModel_spec_witness :
    selectDefaultModel
      [{ id := "tiny", name := "Tiny", path := "/m/tiny.bin", size_bytes := 75,
         recommended := false, available := true },
       { id := "base", name := "Base", path := "/m/base.bin", size_bytes := 142,
         recommended := true, available := false }] = some "base" := by
  refine (selectDefaultModel_spec _).2.1
    { id := "base", name := "Base", path := "/m/base.bin", size_bytes := 142,
      recommended := true, available := false } (by simp) rfl ?_
  intro m' hm' hrec
  simp only [List.mem_cons, List.mem_singleton] at hm'
  rcases hm' with h | h | h
  · rw [h] at hrec
    exact Bool.noConfusion hrec
  · exact h
  · exact absurd h (List.not_mem_nil m')

/-- One raw entry of the command_generate_subtitles_batch response
(AutomationPanel lines 224-228). -/
structure RawSubtitleItem where
  audio_path : String
  subtitle_path : Option String
  preview_lines : List String
deriving DecidableEq

/-- One entry of the subtitle-batch report surfaced to the caller
(AutomationPanel, SubtitleBatchReportItem type). -/
structure SubtitleBatchReportItem where
  audioPath : String
  subtitlePath : Option String
  previewLines : List String
deriving DecidableEq

/-- The mapping applied by handleGenerateSubtitles to the backend response
before storing it as the surfaced report (AutomationPanel lines 239-245). -/
def mapSubtitleBatch (result : List RawSubtitleItem) : List SubtitleBatchReportItem :=
  result.map (fun item =>
    { audioPath := item.audio_path
      subtitlePath := item.subtitle_path
      previewLines := item.preview_lines })

/-- C7: the subtitle-batch report preserves the response order and maps
each entry one-to-one; entry i of the report is exactly the field-renamed
entry i of the response. -/
theorem mapSubtitleBatch_spec (result : List RawSubtitleItem) :
    (mapSubtitleBatch result).length = result.length ∧
    ∀ i : Nat,
      (mapSubtitleBatch result)[i]? =
        (result[i]?).map (fun item =>
          { audioPath := item.audio_path
            subtitlePath := item.subtitle_path
            previewLines := item.preview_lines : SubtitleBatchReportItem }) := by
  refine ⟨by simp [mapSubtitleBatch], fun i => ?_⟩
  simp [mapSubtitleBatch]

/-- A scene media asset (types/project.ts MediaAsset). -/
inductive MediaAsset where
  | image (path : String)
  | video (path : String)
deriving DecidableEq

/-- A scene (types/project.ts Scene). -/
structure Scene where
  id : String
  duration_secs : ℚ
  media : MediaAsset
deriving DecidableEq

/-- Output resolution (types/project.ts). -/
structure Resolution where
  width : Nat
  height : Nat
deriving DecidableEq

/-- Output container format (types/project.ts). -/
inductive VideoFormat where
  | h264
  | h265
  | prores
deriving DecidableEq

/-- Output settings (types/project.ts). -/
structure OutputSettings where
  resolution : Resolution
  frame_rate : ℚ
  format : VideoFormat
deriving DecidableEq

/-- An RGBA colour (types/project.ts Color). -/
structure ProjectColor where
  r : ℚ
  g : ℚ
  b : ℚ
  a : ℚ
deriving DecidableEq

/-- Subtitle alignment (types/project.ts). -/
inductive Alignment where
  | bottom
  | middle
  | top
deriving DecidableEq

/-- Project-level subtitle style (types/project.ts SubtitleStyle). -/
structure ProjectSubtitleStyle where
  font_family : String
  font_size : ℚ
  color : ProjectColor
  alignment : Alignment
deriving DecidableEq

/-- Project metadata (types/project.ts). -/
structure Metadata where
  title : String
deriving DecidableEq

/-- A project (types/project.ts Project). -/
structure Project where
  metadata : Metadata
  output : OutputSettings
  scenes : List Scene
  subtitle_style : ProjectSubtitleStyle
deriving DecidableEq

/-- The updateScene action of the project store (useProject.ts lines
37-43): replace every scene whose id equals the argument's id, keep the
rest of the project via object spread. -/
def updateScene (scene : Scene) (p : Project) : Project :=
  { p with
    scenes := p.scenes.map (fun item => if item.id = scene.id then scene else item) }

/-- C8: updateScene preserves the length and order of the scenes list and
leaves metadata, output and subtitle_style unchanged; entry i of the new
list is the argument when entry i of the old list has the argument's id
and is the old entry otherwise, and when no id matches, the scenes list is
entirely unchanged. -/
theorem updateScene_frame (scene : Scene) (p : Project) :
    ((updateScene scene p).scenes.length = p.scenes.length) ∧
    (updateScene scene p).metadata = p.metadata ∧
    (updateScene scene p).output = p.output ∧
    (updateScene scene p).subtitle_style = p.subtitle_style ∧
    (∀ i : Nat, ∀ item,
      p.scenes[i]? = some item →
        (updateScene scene p).scenes[i]? =
          some (if item.id = scene.id then scene else item)) ∧
    ((∀ item, item ∈ p.scenes → item.id ≠ scene.id) →
      (updateScene scene p).scenes = p.scenes) := by
  refine ⟨by simp [updateScene], rfl, rfl, rfl, fun i item h => ?_, fun hno => ?_⟩
  · simp [updateScene, h]
  · show p.scenes.map (fun item => if item.id = scene.id then scene else item) = p.scenes
    calc p.scenes.map (fun item => if item.id = scene.id then scene else item)
        = p.scenes.map id := by
          apply List.map_congr_left
          intro item hitem
          simp [hno item hitem]
      _ = p.scenes := List.map_id p.scenes

/-- Closed instance of updateScene_frame: a matching scene is replaced in
place and the project metadata survives. -/
theorem updateScene_frame_witness :
    ((updateScene
      { id := "scene-1", duration_secs := 7, media := MediaAsset.video "b.mp4" }
      { metadata := { title := "Demo project" }
        output := { resolution := { width := 1920, height := 1080 },
                    frame_rate := 30, format := VideoFormat.h264 }
        scenes := [{ id := "scene-1", duration_secs := 5,
                     media := MediaAsset.image "assets/scene-1.jpg" }]
        subtitle_style := { font_family := "Arial", font_size := 48,
                            color := { r := 1, g := 1, b := 1, a := 1 },
                            alignment := Alignment.bottom } }).scenes[0]? =
      some { id := "scene-1", duration_secs := 7, media := MediaAsset.video "b.mp4" }) ∧
    (updateScene
      { id := "scene-1", duration_secs := 7, media := MediaAsset.video "b.mp4" }
      { metadata := { title := "Demo project" }
        output := { resolution := { width := 1920, height := 1080 },
                    frame_rate := 30, format := VideoFormat.h264 }
        scenes := [{ id := "scene-1", duration_secs := 5,
                     media := MediaAsset.image "assets/scene-1.jpg" }]
        subtitle_style := { font_family := "Arial", font_size := 48,
                            color := { r := 1, g := 1, b := 1, a := 1 },
                            alignment := Alignment.bottom } }).metadata =
      { title := "Demo project" } := by
  have h := updateScene_frame
    { id := "scene-1", duration_secs := 7, media := MediaAsset.video "b.mp4" }
    { metadata := { title := "Demo project" }
      output := { resolution := { width := 1920, height := 1080 },
                  frame_rate := 30, format := VideoFormat.h264 }
      scenes := [{ id := "scene-1", duration_secs := 5,
                   media := MediaAsset.image "assets/scene-1.jpg" }]
      subtitle_style := { font_family := "Arial", font_size := 48,
                          color := { r := 1, g := 1, b := 1, a := 1 },
                          alignment := Alignment.bottom } }
  refine ⟨?_, h.2.1⟩
  have h0 := h.2.2.2.2.1 0
    { id := "scene-1", duration_secs := 5, media := MediaAsset.image "assets/scene-1.jpg" }
    rfl
  simpa using h0

/-- The result record of pickPath (pickDialog.ts PickResult type). -/
structure PickResult where
  path : String
  cancelled : Bool
deriving DecidableEq

/-- pickPath (pickDialog.ts lines 18-29): the command_pick_path invocation
is modelled by its outcome, an exception message or an optional path. A
null or empty result is reported as cancelled; an exception is caught and
reported as a non-cancelled empty result. -/
def pickPath (cmd : Except String (Option String)) : PickResult :=
  match cmd with
  | .error _ => { path := "", cancelled := false }
  | .ok none => { path := "", cancelled := true }
  | .ok (some s) =>
      if s = "" then { path := "", cancelled := true }
      else { path := s, cancelled := false }

/-- C9: pickPath never propagates an exception: it returns a PickResult
for every command outcome, reporting cancelled on a null or empty result
and a non-cancelled empty result when the command throws; cancelled
implies the path is empty and a non-empty path implies not cancelled. -/
theorem pickPath_spec (cmd : Except String (Option String)) :
    (∀ e, cmd = .error e → pickPath cmd = { path := "", cancelled := false }) ∧
    (cmd = .ok none → pickPath cmd = { path := "", cancelled := true }) ∧
    (cmd = .ok (some "") → pickPath cmd = { path := "", cancelled := true }) ∧
    (∀ s, s ≠ "" → cmd = .ok (some s) → pickPath cmd = { path := s, cancelled := false }) ∧
    ((pickPath cmd).cancelled = true → (pickPath cmd).path = "") ∧
    ((pickPath cmd).path ≠ "" → (pickPath cmd).cancelled = false) := by
  refine ⟨fun e he => by rw [he]; rfl, fun he => by rw [he]; rfl,
    fun he => by rw [he]; rfl, fun s hs he => by rw [he]; simp [pickPath, hs], ?_, ?_⟩
  · match cmd with
    | .error _ => intro h; rfl
    | .ok none => intro h; rfl
    | .ok (some s) =>
        by_cases hs : s = "" <;> simp [pickPath, hs]
  · match cmd with
    | .error _ => intro h; rfl
    | .ok none => intro h; exact absurd rfl h
    | .ok (some s) =>
        by_cases hs : s = "" <;> simp [pickPath, hs]

/-- Closed instance of pickPath_spec: a thrown command yields a
non-cancelled empty result, a null result yields a cancelled one. -/
theorem pickPath_spec_witness :
    pickPath (Except.error "Failed to open picker") =
      { path := "", cancelled := false } ∧
    pickPath (Except.ok none) = { path := "", cancelled := true } := by
  exact ⟨(pickPath_spec (Except.error "Failed to open picker")).1 _ rfl,
    (pickPath_spec (Except.ok none)).2.1 rfl⟩

/-- Job status (spec section 3): Pending, Succeeded, or Failed with a
reason. -/
inductive JobStatus where
  | pending
  | succeeded
  | failed (reason : String)
deriving DecidableEq

/-- Modelled from the spec: the Job descriptor of section 3. The pairing
engine and orchestrator live in the Tauri backend, which is not part of
the front-end sources, so Job is taken from the data model of the
specification. -/
structure Job where
  index : Nat
  audioPath : String
  imagePath : String
  subtitlePath : Option String
  outputPath : String
  status : JobStatus
deriving DecidableEq

/-- Modelled from the spec: the positional pairing of section 4.3. The Job
at position i consumes audio[i], image[i] and subtitle[i] when present,
else null; the sequence length is min(len(audio), len(image)). The
outputPath is assigned downstream by the naming engine and is not
constrained by pairing, so it is left empty here. -/
def pairJobs (audio image subtitle : List String) : List Job :=
  (List.range (min audio.length image.length)).map (fun i =>
    { index := i
      audioPath := (audio[i]?).getD ""
      imagePath := (image[i]?).getD ""
      subtitlePath := subtitle[i]?
      outputPath := ""
      status := JobStatus.pending })

/-- Pairing failure vocabulary of the specification. -/
inductive PairError where
  | insufficientAssets
deriving DecidableEq

/-- Modelled from the spec: pair() of section 4.3, which fails with
InsufficientAssets when either the audio or the image sequence is empty
and otherwise produces the positional pairing. -/
def pair (audio image subtitle : List String) :
    Except PairError (List Job) :=
  if audio = [] ∨ image = [] then .error .insufficientAssets
  else .ok (pairJobs audio image subtitle)

/-- C3: the pairing produces exactly min(len(audio), len(image)) jobs, and
the job at position i consumes audio[i] and image[i], and subtitle[i] when
a subtitle exists at that index, else null; a successful pair() returns
exactly this sequence. -/
theorem pair_positional (audio image subtitle : List String) :
    (pairJobs audio image subtitle).length = min audio.length image.length ∧
    (∀ i : Nat, ∀ j, (pairJobs audio image subtitle)[i]? = some j →
      j.index = i ∧ audio[i]? = some j.audioPath ∧ image[i]? = some j.imagePath ∧
      j.subtitlePath = subtitle[i]?) ∧
    (∀ jobs, pair audio image subtitle = .ok jobs →
      jobs = pairJobs audio image subtitle) := by
  refine ⟨by simp [pairJobs], fun i j h => ?_, fun jobs h => ?_⟩
  · simp only [pairJobs, List.getElem?_map] at h
    by_cases hi : i < min audio.length image.length
    · rw [List.getElem?_range hi] at h
      simp only [Option.map_some'] at h
      have hj := Option.some.inj h
      subst hj
      have hia : i < audio.length := lt_of_lt_of_le hi (Nat.min_le_left _ _)
      have hii : i < image.length := lt_of_lt_of_le hi (Nat.min_le_right _ _)
      refine ⟨rfl, ?_, ?_, rfl⟩
      · rw [List.getElem?_eq_getElem hia]
        rfl
      · rw [List.getElem?_eq_getElem hii]
        rfl
    · rw [List.getElem?_eq_none (by simpa using Nat.le_of_not_lt hi)] at h
      exact Option.noConfusion h
  · rw [pair] at h
    by_cases he : audio = [] ∨ image = []
    · rw [if_pos he] at h
      exact Except.noConfusion h
    · rw [if_neg he] at h
      exact (Except.ok.inj h).symm

/-- Closed instance of pair_positional: two audio files, two images and
one subtitle give two jobs; position 1 consumes the second audio file and
has no subtitle. -/
theorem pair_positional_witness :
    (pairJobs ["a.wav", "b.wav"] ["img1.jpg", "img2.jpg"] ["s1.srt"]).length = min 2 2 ∧
    (["a.wav", "b.wav"] : List String)[1]? = some "b.wav" ∧
    (none : Option String) = (["s1.srt"] : List String)[1]? := by
  have h := pair_positional ["a.wav", "b.wav"] ["img1.jpg", "img2.jpg"] ["s1.srt"]
  have h1 := h.2.1 1
    { index := 1, audioPath := "b.wav", imagePath := "img2.jpg",
      subtitlePath := none, outputPath := "", status := JobStatus.pending }
    (by decide)
  exact ⟨h.1, h1.2.1, h1.2.2.2⟩

/-- Modelled from the spec: execution of one job against the external
transcoding collaborator (section 4.5). The collaborator is abstracted as
a function returning success or a failure reason; the job moves from
Pending to the corresponding terminal state. -/
def runJob (transcode : Job → Except String Unit) (j : Job) : Job :=
  { j with
    status :=
      match transcode j with
      | .ok _ => JobStatus.succeeded
      | .error reason => JobStatus.failed reason }

/-- Modelled from the spec: the orchestrator report in pairing order
(section 4.5), every job executed and reported in its original position. -/
def runJobs (transcode : Job → Except String Unit) (jobs : List Job) : List Job :=
  jobs.map (runJob transcode)

/-- Modelled from the spec: the slot array of section 9 into which
concurrently completed results are collected, indexed by job position.
Jobs are executed in the given order; each completed result is stored in
its own slot. -/
def execSlots (transcode : Job → Except String Unit) (jobs : List Job) :
    List Nat → (Nat → Option Job) → Nat → Option Job
  | [], slots => slots
  | i :: rest, slots =>
      execSlots transcode jobs rest
        (fun k => if k = i then (jobs[i]?).map (runJob transcode) else slots k)

/-- Modelled from the spec: an orchestrator run that executes the jobs in
an arbitrary completion order and emits the collected slots in index
order (sections 4.5 and 5). -/
def runJobsInOrder (transcode : Job → Except String Unit) (jobs : List Job)
    (order : List Nat) : List Job :=
  (List.range jobs.length).filterMap (execSlots transcode jobs order (fun _ => none))

lemma execSlots_eval (transcode : Job → Except String Unit) (jobs : List Job) :
    ∀ (order : List Nat) (slots : Nat → Option Job) (k : Nat),
      execSlots transcode jobs order slots k =
        if k ∈ order then (jobs[k]?).map (runJob transcode) else slots k := by
  intro order
  induction order with
  | nil => intro slots k; simp [execSlots]
  | cons i rest ih =>
      intro slots k
      rw [execSlots, ih]
      by_cases hk : k ∈ rest
      · simp [hk, List.mem_cons]
      · by_cases hki : k = i
        · subst hki
          simp [hk]
        · simp [hk, hki, List.mem_cons]

lemma filterMap_range_getElem (jobs : List Job) (f : Job → Job) :
    (List.range jobs.length).filterMap (fun k => (jobs[k]?).map f) = jobs.map f := by
  induction jobs with
  | nil => rfl
  | cons j js ih =>
      have hrange : List.range (js.length + 1) =
          0 :: (List.range js.length).map Nat.succ := List.range_succ_eq_map js.length
      show (List.range (js.length + 1)).filterMap
        (fun k => ((j :: js)[k]?).map f) = f j :: js.map f
      rw [hrange, List.filterMap_cons, List.filterMap_map]
      simp only [List.getElem?_cons_zero, Option.map_some']
      congr 1
      calc (List.range js.length).filterMap
            ((fun k => ((j :: js)[k]?).map f) ∘ Nat.succ)
          = (List.range js.length).filterMap (fun k => (js[k]?).map f) := by
            apply List.filterMap_congr
            intro k _
            simp [Function.comp, List.getElem?_cons_succ]
        _ = js.map f := ih

/-- C4: the orchestrator isolates failures. For every job sequence and
every execution order covering all positions, the emitted report equals
the sequential in-index-order report; every job appears in the report at
its original pairing position in a terminal state, Succeeded when the
collaborator succeeded and Failed with the collaborator's reason
otherwise, so one job's failure never removes another from the report. -/
theorem orchestrator_isolation (transcode : Job → Except String Unit)
    (jobs : List Job) (order : List Nat)
    (hcover : ∀ i, i < jobs.length → i ∈ order) :
    runJobsInOrder transcode jobs order = runJobs transcode jobs ∧
    (runJobs transcode jobs).length = jobs.length ∧
    (∀ i : Nat, ∀ j, jobs[i]? = some j →
      (runJobs transcode jobs)[i]? = some (runJob transcode j) ∧
      (runJob transcode j).index = j.index ∧
      ((transcode j = .ok () ∧ (runJob transcode j).status = JobStatus.succeeded) ∨
        (∃ reason, transcode j = .error reason ∧
          (runJob transcode j).status = JobStatus.failed reason))) := by
  refine ⟨?_, by simp [runJobs], fun i j h => ?_⟩
  · rw [runJobsInOrder, runJobs]
    rw [List.filterMap_congr (g := fun k => (jobs[k]?).map (runJob transcode)) ?_]
    · exact filterMap_range_getElem jobs (runJob transcode)
    · intro k hk
      have hklt : k < jobs.length := by simpa using List.mem_range.mp hk
      rw [execSlots_eval, if_pos (hcover k hklt)]
  · refine ⟨by rw [runJobs, List.getElem?_map, h]; rfl, rfl, ?_⟩
    cases ht : transcode j with
    | ok u =>
        cases u
        exact Or.inl ⟨rfl, by simp [runJob, ht]⟩
    | error reason =>
        exact Or.inr ⟨reason, rfl, by simp [runJob, ht]⟩

/-- Closed instance of orchestrator_isolation: three jobs with the second
rigged to fail, executed in the order 2, 0, 1, still produce the
index-ordered report with 2 successes and 1 failure. -/
theorem orchestrator_isolation_witness :
    runJobsInOrder
      (fun j => if j.index = 1 then Except.error "rigged" else Except.ok ())
      [{ index := 0, audioPath := "a0", imagePath := "i0", subtitlePath := none,
         outputPath := "o0", status := JobStatus.pending },
       { index := 1, audioPath := "a1", imagePath := "i1", subtitlePath := none,
         outputPath := "o1", status := JobStatus.pending },
       { index := 2, audioPath := "a2", imagePath := "i2", subtitlePath := none,
         outputPath := "o2", status := JobStatus.pending }]
      [2, 0, 1] =
    runJobs
      (fun j => if j.index = 1 then Except.error "rigged" else Except.ok ())
      [{ index := 0, audioPath := "a0", imagePath := "i0", subtitlePath := none,
         outputPath := "o0", status := JobStatus.pending },
       { index := 1, audioPath := "a1", imagePath := "i1", subtitlePath := none,
         outputPath := "o1", status := JobStatus.pending },
       { index := 2, audioPath := "a2", imagePath := "i2", subtitlePath := none,
         outputPath := "o2", status := JobStatus.pending }] ∧
    (runJobs
      (fun j => if j.index = 1 then Except.error "rigged" else Except.ok ())
      [{ index := 0, audioPath := "a0", imagePath := "i0", subtitlePath := none,
         outputPath := "o0", status := JobStatus.pending },
       { index := 1, audioPath := "a1", imagePath := "i1", subtitlePath := none,
         outputPath := "o1", status := JobStatus.pending },
       { index := 2, audioPath := "a2", imagePath := "i2", subtitlePath := none,
         outputPath := "o2", status := JobStatus.pending }]).map
      (fun j => j.status) =
      [JobStatus.succeeded, JobStatus.failed "rigged", JobStatus.succeeded] := by
  have h := orchestrator_isolation
    (fun j => if j.index = 1 then Except.error "rigged" else Except.ok ())
    [{ index := 0, audioPath := "a0", imagePath := "i0", subtitlePath := none,
       outputPath := "o0", status := JobStatus.pending },
     { index := 1, audioPath := "a1", imagePath := "i1", subtitlePath := none,
       outputPath := "o1", status := JobStatus.pending },
     { index := 2, audioPath := "a2", imagePath := "i2", subtitlePath := none,
       outputPath := "o2", status := JobStatus.pending }]
    [2, 0, 1]
    (by
      intro i hi
      match i with
      | 0 => decide
      | 1 => decide
      | 2 => decide
      | n + 3 =>
          simp only [List.length_cons, List.length_nil] at hi
          omega)
  exact ⟨h.1, by decide⟩

end FastEdit
